import Mathlib

/-!
Shallow embedding of the `provide` crate (compile-time dependency provision).

The crate is a set of traits and blanket implementations.  Each Rust trait is
embedded as a record of functions (a "dictionary"), and each blanket
implementation is embedded as a definition that builds such a dictionary from
the dictionaries its `where`-clause demands, with a body translated from the
Rust body.  Rust references are modelled by the value they point at; a
`&mut self` receiver is modelled by returning the post-state of the provider
next to the result; `T: Clone` is modelled by an explicit `clone : T → T`
function; `Infallible` is modelled by an empty inductive type.

The repository contains two snapshots of the base provider traits:
- `src/src/provide.rs` declares GAT-style traits (`ProvideRef<T>` with an
  associated reference family `Ref<'me>: Deref<Target = T>`); these are used by
  `src/src/with/provide/ref.rs` and `src/src/with/provide/mut.rs`;
- `src/src/provide/{owned,ref,mut}.rs` declares lifetime-parameterized traits
  (`ProvideRef<'me, T>` whose `provide_ref(&'me self) -> T` returns the
  dependency type directly); these are used by `src/src/with/provide/owned.rs`
  and carry the `TryProvide*` family.
Both are embedded below; the lifetime-parameterized forms carry the `Lt`
suffix.  The context `Empty` is `()` in the source and is `Unit` here.
-/

set_option autoImplicit false

/-- Rust `Infallible`: a type with no values, the error type of the blanket
`TryProvide*` implementations. -/
inductive Infallible : Type

/-- Trait `Provide<T>` (src/src/provide/owned.rs): provides a dependency by
value, together with the remaining part `R` of the provider. -/
structure Provide (U T R : Type) where
  provide : U → T × R

/-- Blanket impl `Provide<T> for U where U: Into<T>`
(src/src/provide/owned.rs, lines 118-128): the body is
`let dependency = self.into(); (dependency, ())`. -/
def Provide.intoProvide {U T : Type} (into : U → T) : Provide U T Unit :=
  ⟨fun u => (into u, ())⟩

/-- Trait `ProvideRef<'me, T>` (src/src/provide/ref.rs): provides a dependency
by shared reference; `provide_ref(&'me self) -> T` returns `T` directly, so a
shared borrow of the provider produces the value with no state change. -/
structure ProvideRefLt (U T : Type) where
  provide_ref : U → T

/-- Trait `ProvideMut<'me, T>` (src/src/provide/mut.rs): provides a dependency
from a `&'me mut self` receiver.  The unique borrow may mutate the provider,
so the model returns the provided value together with the post-state of the
provider. -/
structure ProvideMutLt (U T : Type) where
  provide_mut : U → T × U

/-- Trait `ProvideRef<T>` (src/src/provide.rs, GAT snapshot): provides a
dependency by shared reference through an associated reference family
`Ref<'me>: Deref<Target = T>`.  The family is modelled by a type `Ref`
together with the dereference function reaching the `T` target. -/
structure ProvideRef (U T Ref : Type) where
  provide_ref : U → Ref
  deref : Ref → T

/-- Trait `ProvideMut<T>` (src/src/provide.rs, GAT snapshot): mirror of
`ProvideRef` for the unique-reference family `Mut<'me>: DerefMut<Target = T>`. -/
structure ProvideMut (U T M : Type) where
  provide_mut : U → M
  deref : M → T

/-- Blanket impl `ProvideRef<T> for U where U: AsRef<T>`
(src/src/provide.rs): `Ref<'me> = &'me T` and `provide_ref = self.as_ref()`. -/
def ProvideRef.ofAsRef {U T : Type} (asRef : U → T) : ProvideRef U T T :=
  ⟨asRef, id⟩

/-- Blanket impl `ProvideMut<T> for U where U: AsMut<T>`
(src/src/provide.rs): `Mut<'me> = &'me mut T` and `provide_mut = self.as_mut()`. -/
def ProvideMut.ofAsMut {U T : Type} (asMut : U → T) : ProvideMut U T T :=
  ⟨asMut, id⟩

/-- Blanket impl `TryProvide<T> for U where U: Provide<T>`
(src/src/provide/owned.rs, lines 157-169): error type `Infallible`, body
`let provide = self.provide(); Ok(provide)`. -/
def try_provide {U T R : Type} (inst : Provide U T R) (u : U) :
    Except Infallible (T × R) :=
  Except.ok (inst.provide u)

/-- Blanket impl `TryProvideRef<'me, T> for U where U: ProvideRef<'me, T>`
(src/src/provide/ref.rs, lines 141-151): error type `Infallible`, body
`let provide_ref = self.provide_ref(); Ok(provide_ref)`. -/
def try_provide_ref {U T : Type} (inst : ProvideRefLt U T) (u : U) :
    Except Infallible T :=
  Except.ok (inst.provide_ref u)

/-- Blanket impl `TryProvideMut<'me, T> for U where U: ProvideMut<'me, T>`
(src/src/provide/mut.rs, lines 141-151): error type `Infallible`, body
`let provide_mut = self.provide_mut(); Ok(provide_mut)`. -/
def try_provide_mut {U T : Type} (inst : ProvideMutLt U T) (u : U) :
    Except Infallible (T × U) :=
  Except.ok (inst.provide_mut u)

/-- `DerefWrapper<T>` (src/src/deref.rs): noop smart pointer which holds the
value it points to. -/
structure DerefWrapper (T : Type) where
  value : T

/-- `DerefWrapper::new` (src/src/deref.rs): `Self(value)`. -/
def DerefWrapper.new {T : Type} (value : T) : DerefWrapper T :=
  ⟨value⟩

/-- `DerefWrapper::into_inner` (src/src/deref.rs):
`let Self(value) = self; value`. -/
def DerefWrapper.into_inner {T : Type} (w : DerefWrapper T) : T :=
  w.value

/-- `impl Deref for DerefWrapper<T>` (src/src/deref.rs): the shared reference
returned by `deref` points at the held field. -/
def DerefWrapper.deref {T : Type} (w : DerefWrapper T) : T :=
  w.value

/-- `impl DerefMut for DerefWrapper<T>` (src/src/deref.rs): the unique
reference returned by `deref_mut` points at the held field. -/
def DerefWrapper.deref_mut {T : Type} (w : DerefWrapper T) : T :=
  w.value

/-- `impl AsRef<V> for DerefWrapper<T>` (src/src/deref.rs): body is
`self.deref().as_ref()`, chaining the held value's own `AsRef`. -/
def DerefWrapper.as_ref {T V : Type} (asRefT : T → V) (w : DerefWrapper T) : V :=
  asRefT w.deref

/-- `impl AsMut<V> for DerefWrapper<T>` (src/src/deref.rs): body is
`self.deref_mut().as_mut()`, chaining the held value's own `AsMut`. -/
def DerefWrapper.as_mut {T V : Type} (asMutT : T → V) (w : DerefWrapper T) : V :=
  asMutT w.deref_mut

/-- `impl Borrow<T> for DerefWrapper<T>` (src/src/deref.rs): `self.deref()`. -/
def DerefWrapper.borrow {T : Type} (w : DerefWrapper T) : T :=
  w.deref

/-- `impl BorrowMut<T> for DerefWrapper<T>` (src/src/deref.rs):
`self.deref_mut()`. -/
def DerefWrapper.borrow_mut {T : Type} (w : DerefWrapper T) : T :=
  w.deref_mut

/-- Trait `With<T>` (src/src/with/with.rs): extends a value of type `S` with
one more dependency of type `T`, producing a composite of type `O`. -/
structure With (S T O : Type) where
  with' : S → T → O

/-- `impl With<T> for ()` (src/src/with/with.rs, lines 26-32): the empty
provider extended with a dependency is the dependency itself. -/
def With.unit {T : Type} : With Unit T T :=
  ⟨fun _ t => t⟩

/-- Context `CloneDependency` (src/src/context/clone/owned.rs): provide by
cloning a value.  In the impls of src/src/with/provide/owned.rs the context is
a plain marker carrying no data. -/
inductive CloneDependency : Type where
  | new

/-- Context `CloneDependencyRef` (src/src/context/clone/ref.rs): provide by
cloning from a shared reference; a marker carrying no data. -/
inductive CloneDependencyRef : Type where
  | new

/-- Context `CloneDependencyMut` (src/src/context/clone/mut.rs): provide by
cloning from a unique reference; a marker carrying no data. -/
inductive CloneDependencyMut : Type where
  | new

/-- Context `FromDependency<D>` (src/src/context/convert/owned.rs): provide by
converting another dependency `D` extracted by value; a phantom marker. -/
inductive FromDependency (D : Type) : Type where
  | new

/-- Context `FromDependencyRef<D>` (src/src/context/convert/ref.rs): provide
by converting another dependency `D` extracted by shared reference; a phantom
marker. -/
inductive FromDependencyRef (D : Type) : Type where
  | new

/-- Context `FromDependencyMut<D>` (src/src/context/convert/mut.rs): provide
by converting another dependency `D` extracted by unique reference; a phantom
marker. -/
inductive FromDependencyMut (D : Type) : Type where
  | new

/-- Context `FromDependencyWith<D, C>` (src/src/context/convert/owned.rs):
the convert-by-value context wrapping an inner context `C`. -/
structure FromDependencyWith (D C : Type) where
  context : C

/-- `FromDependencyWith::into_inner`: `let Self { context, .. } = self; context`. -/
def FromDependencyWith.into_inner {D C : Type} (c : FromDependencyWith D C) : C :=
  c.context

/-- Context `FromDependencyRefWith<D, C>` (src/src/context/convert/ref.rs):
the convert-by-shared-reference context wrapping an inner context `C`. -/
structure FromDependencyRefWith (D C : Type) where
  context : C

/-- `FromDependencyRefWith::into_inner`. -/
def FromDependencyRefWith.into_inner {D C : Type} (c : FromDependencyRefWith D C) : C :=
  c.context

/-- Context `FromDependencyMutWith<D, C>` (src/src/context/convert/mut.rs):
the convert-by-unique-reference context wrapping an inner context `C`. -/
structure FromDependencyMutWith (D C : Type) where
  context : C

/-- `FromDependencyMutWith::into_inner`. -/
def FromDependencyMutWith.into_inner {D C : Type} (c : FromDependencyMutWith D C) : C :=
  c.context

/-- Context `CloneDependencyWith<C>` (src/src/context/clone/owned.rs): the
clone-by-value context wrapping an inner context `C`. -/
structure CloneDependencyWith (C : Type) where
  context : C

/-- `CloneDependencyWith::into_inner`. -/
def CloneDependencyWith.into_inner {C : Type} (c : CloneDependencyWith C) : C :=
  c.context

/-- Context `CloneDependencyRefWith<C>` (src/src/context/clone/ref.rs): the
clone-by-shared-reference context wrapping an inner context `C`. -/
structure CloneDependencyRefWith (C : Type) where
  context : C

/-- `CloneDependencyRefWith::into_inner`. -/
def CloneDependencyRefWith.into_inner {C : Type} (c : CloneDependencyRefWith C) : C :=
  c.context

/-- Context `CloneDependencyMutWith<C>` (src/src/context/clone/mut.rs): the
clone-by-unique-reference context wrapping an inner context `C`. -/
structure CloneDependencyMutWith (C : Type) where
  context : C

/-- `CloneDependencyMutWith::into_inner`. -/
def CloneDependencyMutWith.into_inner {C : Type} (c : CloneDependencyMutWith C) : C :=
  c.context

/-- Trait `ProvideRefWith<'me, T, C>` (lifetime-parameterized snapshot, the
form used by the bounds of src/src/with/provide/owned.rs and implemented by
the providers of src/tests/my_context.rs): `provide_ref_with(&'me self, C) -> T`
returns the dependency directly from a shared borrow. -/
structure ProvideRefWithLt (U C T : Type) where
  provide_ref_with : U → C → T

/-- Trait `ProvideMutWith<'me, T, C>` (lifetime-parameterized snapshot, the
form used by the bounds of src/src/with/provide/owned.rs):
`provide_mut_with(&'me mut self, C) -> T` from a unique borrow; the model
returns the value together with the post-state of the provider. -/
structure ProvideMutWithLt (U C T : Type) where
  provide_mut_with : U → C → T × U

/-- Trait `ProvideWith<T, C>` (src/src/with/provide/owned.rs): like
`Provide<T>` but parameterized by a caller-supplied context `C`. -/
structure ProvideWith (U C T R : Type) where
  provide_with : U → C → T × R

/-- Impl `ProvideWith<T, Empty> for U where U: Provide<T>`
(src/src/with/provide/owned.rs, lines 46-55): `self.provide()`. -/
def ProvideWith.empty {U T R : Type} (inst : Provide U T R) :
    ProvideWith U Unit T R :=
  ⟨fun u _ => inst.provide u⟩

/-- Impl `ProvideWith<T, FromDependency<D>> for U where U: Provide<D>, D: Into<T>`
(src/src/with/provide/owned.rs, lines 57-69):
`let (dependency, remainder) = self.provide(); (dependency.into(), remainder)`. -/
def ProvideWith.fromDependency {U D R T : Type} (inst : Provide U D R)
    (into : D → T) : ProvideWith U (FromDependency D) T R :=
  ⟨fun u _ =>
    let p := inst.provide u
    (into p.1, p.2)⟩

/-- Impl `ProvideWith<T, FromDependencyWith<D, C>> for U where U: ProvideWith<D, C>, D: Into<T>`
(src/src/with/provide/owned.rs, lines 71-84): unwrap the inner context,
provide `D` with it, convert the dependency. -/
def ProvideWith.fromDependencyWith {U C D R T : Type}
    (inst : ProvideWith U C D R) (into : D → T) :
    ProvideWith U (FromDependencyWith D C) T R :=
  ⟨fun u ctx =>
    let p := inst.provide_with u ctx.into_inner
    (into p.1, p.2)⟩

/-- Impl `ProvideWith<T, FromDependencyRef<D>> for U where U: ProvideRef<'any, D>, D: Into<T>`
(src/src/with/provide/owned.rs, lines 86-98):
`let dependency = self.provide_ref().into(); (dependency, self)` — the
remainder is the provider itself, untouched by the shared borrow. -/
def ProvideWith.fromDependencyRef {U D T : Type} (inst : ProvideRefLt U D)
    (into : D → T) : ProvideWith U (FromDependencyRef D) T U :=
  ⟨fun u _ => (into (inst.provide_ref u), u)⟩

/-- Impl `ProvideWith<T, FromDependencyRefWith<D, C>> for U where U: ProvideRefWith<'any, D, C>, D: Into<T>`
(src/src/with/provide/owned.rs, lines 100-112): unwrap the inner context,
provide `D` by shared reference with it, convert; remainder is the provider. -/
def ProvideWith.fromDependencyRefWith {U C D T : Type}
    (inst : ProvideRefWithLt U C D) (into : D → T) :
    ProvideWith U (FromDependencyRefWith D C) T U :=
  ⟨fun u ctx => (into (inst.provide_ref_with u ctx.into_inner), u)⟩

/-- Impl `ProvideWith<T, FromDependencyMut<D>> for U where U: ProvideMut<'any, D>, D: Into<T>`
(src/src/with/provide/owned.rs, lines 114-126):
`let dependency = self.provide_mut().into(); (dependency, self)` — `self` was
uniquely borrowed, so the remainder is the possibly mutated provider. -/
def ProvideWith.fromDependencyMut {U D T : Type} (inst : ProvideMutLt U D)
    (into : D → T) : ProvideWith U (FromDependencyMut D) T U :=
  ⟨fun u _ =>
    let p := inst.provide_mut u
    (into p.1, p.2)⟩

/-- Impl `ProvideWith<T, FromDependencyMutWith<D, C>> for U where U: ProvideMutWith<'any, D, C>, D: Into<T>`
(src/src/with/provide/owned.rs, lines 128-142). -/
def ProvideWith.fromDependencyMutWith {U C D T : Type}
    (inst : ProvideMutWithLt U C D) (into : D → T) :
    ProvideWith U (FromDependencyMutWith D C) T U :=
  ⟨fun u ctx =>
    let p := inst.provide_mut_with u ctx.into_inner
    (into p.1, p.2)⟩

/-- Impl `ProvideWith<T, CloneDependency> for U where T: Clone, U: Provide<T>, U::Remainder: With<T>`
(src/src/with/provide/owned.rs, lines 144-157):
`let (dependency, remainder) = self.provide();
 (dependency, remainder.with(dependency.clone()))`. -/
def ProvideWith.cloneDependency {U T R O : Type} (clone : T → T)
    (inst : Provide U T R) (w : With R T O) :
    ProvideWith U CloneDependency T O :=
  ⟨fun u _ =>
    let p := inst.provide u
    (p.1, w.with' p.2 (clone p.1))⟩

/-- Impl `ProvideWith<T, CloneDependencyWith<C>> for U where T: Clone, U: ProvideWith<T, C>, U::Remainder: With<T>`
(src/src/with/provide/owned.rs, lines 159-173). -/
def ProvideWith.cloneDependencyWith {U C T R O : Type} (clone : T → T)
    (inst : ProvideWith U C T R) (w : With R T O) :
    ProvideWith U (CloneDependencyWith C) T O :=
  ⟨fun u ctx =>
    let p := inst.provide_with u ctx.into_inner
    (p.1, w.with' p.2 (clone p.1))⟩

/-- Impl `ProvideWith<T, CloneDependencyRef> for U where T: Clone, U: ProvideRef<'any, &'any T>`
(src/src/with/provide/owned.rs, lines 178-189): the provider provides a shared
reference `&T`; the body `self.provide_ref().clone()` clones its `T` target,
and the remainder is the provider itself. -/
def ProvideWith.cloneDependencyRef {U T : Type} (clone : T → T)
    (inst : ProvideRefLt U T) : ProvideWith U CloneDependencyRef T U :=
  ⟨fun u _ => (clone (inst.provide_ref u), u)⟩

/-- Impl `ProvideWith<T, CloneDependencyRefWith<C>> for U where T: Clone, U: ProvideRefWith<'any, &'any T, C>`
(src/src/with/provide/owned.rs, lines 194-206). -/
def ProvideWith.cloneDependencyRefWith {U C T : Type} (clone : T → T)
    (inst : ProvideRefWithLt U C T) :
    ProvideWith U (CloneDependencyRefWith C) T U :=
  ⟨fun u ctx => (clone (inst.provide_ref_with u ctx.into_inner), u)⟩

/-- Impl `ProvideWith<T, CloneDependencyMut> for U where T: Clone, U: ProvideMut<'any, &'any T>`
(src/src/with/provide/owned.rs, lines 211-222): clone the target of the
reference returned from the unique borrow; the remainder is the possibly
mutated provider. -/
def ProvideWith.cloneDependencyMut {U T : Type} (clone : T → T)
    (inst : ProvideMutLt U T) : ProvideWith U CloneDependencyMut T U :=
  ⟨fun u _ =>
    let p := inst.provide_mut u
    (clone p.1, p.2)⟩

/-- Impl `ProvideWith<T, CloneDependencyMutWith<C>> for U where T: Clone, U: ProvideMutWith<'any, &'any T, C>`
(src/src/with/provide/owned.rs, lines 227-240). -/
def ProvideWith.cloneDependencyMutWith {U C T : Type} (clone : T → T)
    (inst : ProvideMutWithLt U C T) :
    ProvideWith U (CloneDependencyMutWith C) T U :=
  ⟨fun u ctx =>
    let p := inst.provide_mut_with u ctx.into_inner
    (clone p.1, p.2)⟩

/-- Trait `ProvideRefWith<T, C>` (src/src/with/provide/ref.rs, GAT snapshot):
provides a dependency by shared reference under a context, through an
associated reference family `Ref<'me>: Deref<Target = T>` modelled by the type
`Ref` with its dereference function. -/
structure ProvideRefWith (U C T Ref : Type) where
  provide_ref_with : U → C → Ref
  deref : Ref → T

/-- Impl `ProvideRefWith<T, Empty> for U where U: ProvideRef<T>`
(src/src/with/provide/ref.rs, lines 49-65): `Ref<'me> = U::Ref<'me>` and the
body forwards to `self.provide_ref()`. -/
def ProvideRefWith.empty {U T Ref : Type} (inst : ProvideRef U T Ref) :
    ProvideRefWith U Unit T Ref :=
  ⟨fun u _ => inst.provide_ref u, inst.deref⟩

/-- Impl `ProvideRefWith<T, FromDependencyRef<D>> for U where U: ProvideRef<D>, U::Ref<'any>: Into<T>`
(src/src/with/provide/ref.rs, lines 67-86): `Ref<'me> = DerefWrapper<T>`;
the body converts the provided reference into `T` and wraps it. -/
def ProvideRefWith.fromDependencyRef {U D RefD T : Type}
    (inst : ProvideRef U D RefD) (into : RefD → T) :
    ProvideRefWith U (FromDependencyRef D) T (DerefWrapper T) :=
  ⟨fun u _ => DerefWrapper.new (into (inst.provide_ref u)), DerefWrapper.deref⟩

/-- Impl `ProvideRefWith<T, FromDependencyRefWith<D, C>> for U where U: ProvideRefWith<D, C>, U::Ref<'any>: Into<T>`
(src/src/with/provide/ref.rs, lines 88-107). -/
def ProvideRefWith.fromDependencyRefWith {U C D RefD T : Type}
    (inst : ProvideRefWith U C D RefD) (into : RefD → T) :
    ProvideRefWith U (FromDependencyRefWith D C) T (DerefWrapper T) :=
  ⟨fun u ctx => DerefWrapper.new (into (inst.provide_ref_with u ctx.into_inner)),
    DerefWrapper.deref⟩

/-- Impl `ProvideRefWith<T, CloneDependencyRef> for U where T: Clone, U: ProvideRef<T>`
(src/src/with/provide/ref.rs, lines 110-127): `Ref<'me> = DerefWrapper<T>`;
the body `self.provide_ref().clone()` clones the `T` target reached by
dereferencing the provided `U::Ref` value, then wraps it via `.into()`. -/
def ProvideRefWith.cloneDependencyRef {U T Ref : Type} (clone : T → T)
    (inst : ProvideRef U T Ref) :
    ProvideRefWith U CloneDependencyRef T (DerefWrapper T) :=
  ⟨fun u _ => DerefWrapper.new (clone (inst.deref (inst.provide_ref u))),
    DerefWrapper.deref⟩

/-- Impl `ProvideRefWith<T, CloneDependencyRefWith<C>> for U where T: Clone, U: ProvideRefWith<T, C>`
(src/src/with/provide/ref.rs, lines 129-147): unwrap the inner context,
provide with it, clone the target of the resulting reference, wrap. -/
def ProvideRefWith.cloneDependencyRefWith {U C T Ref : Type} (clone : T → T)
    (inst : ProvideRefWith U C T Ref) :
    ProvideRefWith U (CloneDependencyRefWith C) T (DerefWrapper T) :=
  ⟨fun u ctx => DerefWrapper.new (clone (inst.deref (inst.provide_ref_with u ctx.into_inner))),
    DerefWrapper.deref⟩

/-- Trait `ProvideMutWith<T, C>` (src/src/with/provide/mut.rs, GAT snapshot):
provides a dependency by unique reference under a context, through the
associated family `Mut<'me>: DerefMut<Target = T>`. -/
structure ProvideMutWith (U C T M : Type) where
  provide_mut_with : U → C → M
  deref : M → T

/-- Impl `ProvideMutWith<T, Empty> for U where U: ProvideMut<T>`
(src/src/with/provide/mut.rs, lines 55-71): forwards to `self.provide_mut()`. -/
def ProvideMutWith.empty {U T M : Type} (inst : ProvideMut U T M) :
    ProvideMutWith U Unit T M :=
  ⟨fun u _ => inst.provide_mut u, inst.deref⟩

/-- Impl `ProvideMutWith<T, CloneDependencyMut> for U where T: Clone, U: ProvideMut<T>`
(src/src/with/provide/mut.rs): `Mut<'me> = DerefWrapper<T>`; the body
`self.provide_mut().clone()` clones the `T` target reached by dereferencing
the provided `U::Mut` value, then wraps it via `.into()`. -/
def ProvideMutWith.cloneDependencyMut {U T M : Type} (clone : T → T)
    (inst : ProvideMut U T M) :
    ProvideMutWith U CloneDependencyMut T (DerefWrapper T) :=
  ⟨fun u _ => DerefWrapper.new (clone (inst.deref (inst.provide_mut u))),
    DerefWrapper.deref⟩

/-!
Concrete checks mirroring the repository's own tests.
-/

/-- Mirror of src/tests/provide.rs `self_impl`: a value provides itself. -/
example : (Provide.intoProvide (fun n : Nat => (n : Int))).provide 1 = (1, ()) :=
  rfl

/-- Mirror of src/tests/clone_context.rs `by_value` and of the spec's concrete
scenario: the provider `[1, 2, 3, 4, 5]` under `CloneDependency` yields equal
dependency and remainder. -/
example :
    (ProvideWith.cloneDependency (id : List Nat → List Nat)
        (Provide.intoProvide id) With.unit).provide_with [1, 2, 3, 4, 5]
        CloneDependency.new
      = ([1, 2, 3, 4, 5], [1, 2, 3, 4, 5]) :=
  rfl

/-- C1: for every provider and every dependency type, providing with the
`Empty` context equals providing with the base trait: `provide_with(Empty)`
returns exactly the pair that `provide()` returns, `provide_ref_with(Empty)`
returns exactly what `provide_ref()` returns, and `provide_mut_with(Empty)`
returns exactly what `provide_mut()` returns. -/
theorem empty_context_forwards_to_base {U T R RefT M : Type}
    (instP : Provide U T R) (instR : ProvideRef U T RefT)
    (instM : ProvideMut U T M) (u : U) :
    (ProvideWith.empty instP).provide_with u () = instP.provide u
      ∧ (ProvideRefWith.empty instR).provide_ref_with u () = instR.provide_ref u
      ∧ (ProvideMutWith.empty instM).provide_mut_with u () = instM.provide_mut u :=
  ⟨rfl, rfl, rfl⟩

/-- C2: after `provide_with` under the clone-by-value context, the returned
remainder (the clone fed back through `With`, here the unit-remainder instance
`impl With<T> for ()`), when asked for `T` again via the `Empty` context,
yields a value equal to the dependency that was originally returned — assuming
the `Clone` implementation produces a value equal to its source. -/
theorem clone_dependency_roundtrip_through_with {U T : Type}
    (inst : Provide U T Unit) (clone : T → T) (u : U)
    (h : clone (inst.provide u).1 = (inst.provide u).1) :
    ((ProvideWith.empty (Provide.intoProvide (id : T → T))).provide_with
        (((ProvideWith.cloneDependency clone inst With.unit).provide_with u
          CloneDependency.new).2) ()).1
      = ((ProvideWith.cloneDependency clone inst With.unit).provide_with u
          CloneDependency.new).1 := by
  simpa [ProvideWith.empty, ProvideWith.cloneDependency, Provide.intoProvide,
    With.unit] using h

/-- Witness for C2 at the provider `[1, 2, 3, 4, 5]` of src/tests/clone_context.rs. -/
theorem clone_dependency_roundtrip_witness :
    ((ProvideWith.empty (Provide.intoProvide (id : List Nat → List Nat))).provide_with
        (((ProvideWith.cloneDependency (id : List Nat → List Nat)
            (Provide.intoProvide id) With.unit).provide_with [1, 2, 3, 4, 5]
          CloneDependency.new).2) ()).1
      = ((ProvideWith.cloneDependency (id : List Nat → List Nat)
            (Provide.intoProvide id) With.unit).provide_with [1, 2, 3, 4, 5]
          CloneDependency.new).1 :=
  clone_dependency_roundtrip_through_with (Provide.intoProvide id) id
    [1, 2, 3, 4, 5] rfl

/-- C3: nesting the clone-after-convert contexts composes pointwise —
`provide_ref_with` under the clone-by-ref context wrapping the convert-by-ref
inner context produces a value equal to calling `provide_ref_with` with only
the convert-by-ref context and then cloning the result. -/
theorem clone_after_convert_composes_pointwise {U D RefD T : Type}
    (inst : ProvideRef U D RefD) (into : RefD → T) (clone : T → T) (u : U) :
    DerefWrapper.deref
        ((ProvideRefWith.cloneDependencyRefWith clone
            (ProvideRefWith.fromDependencyRef inst into)).provide_ref_with u
          ⟨FromDependencyRef.new⟩)
      = clone (DerefWrapper.deref
          ((ProvideRefWith.fromDependencyRef inst into).provide_ref_with u
            FromDependencyRef.new)) :=
  rfl

/-- C4: the blanket `Provide<T>` implementation for `U: Into<T>` returns the
pair `(self.into(), ())`: the dependency is the direct conversion of the
provider, the remainder is the unit value. -/
theorem into_blanket_provides_self_conversion {U T : Type}
    (into : U → T) (u : U) :
    (Provide.intoProvide into).provide u = (into u, ()) :=
  rfl

/-- C5: `provide_with` under the `FromDependency::<D>` context returns the
conversion into `T` of exactly the dependency that `Provide<D>` would have
returned, together with the same remainder that `Provide<D>` would have
returned. -/
theorem from_dependency_converts_provided_dependency {U D R T : Type}
    (inst : Provide U D R) (into : D → T) (u : U) :
    (ProvideWith.fromDependency inst into).provide_with u FromDependency.new
      = (into (inst.provide u).1, (inst.provide u).2) :=
  rfl

/-- C6: under the clone-from-reference context, `provide_with` yields the
clone of the provider's referenced value with the provider itself, unchanged,
as the remainder; `provide_ref_with` yields the clone of the value reached by
dereferencing the provider's reference, and only borrows the provider. -/
theorem clone_dependency_ref_clones_without_consuming {U T RefT : Type}
    (instL : ProvideRefLt U T) (instG : ProvideRef U T RefT)
    (clone : T → T) (u : U) :
    (ProvideWith.cloneDependencyRef clone instL).provide_with u
        CloneDependencyRef.new
      = (clone (instL.provide_ref u), u)
      ∧ DerefWrapper.deref
          ((ProvideRefWith.cloneDependencyRef clone instG).provide_ref_with u
            CloneDependencyRef.new)
        = clone (instG.deref (instG.provide_ref u)) :=
  ⟨rfl, rfl⟩

/-- C7: the blanket `Try*` implementations over the infallible traits always
return `Ok` of exactly the infallible result; their error type is
`Infallible`, so the success branch is always taken. -/
theorem try_variants_always_ok {U T R : Type}
    (instP : Provide U T R) (instR : ProvideRefLt U T)
    (instM : ProvideMutLt U T) (u : U) :
    try_provide instP u = Except.ok (instP.provide u)
      ∧ try_provide_ref instR u = Except.ok (instR.provide_ref u)
      ∧ try_provide_mut instM u = Except.ok (instM.provide_mut u)
      ∧ (try_provide instP u).isOk = true :=
  ⟨rfl, rfl, rfl, rfl⟩

/-- C8 counterexample: the claim includes `CloneDependency` among the contexts
that clone through an intermediate dereferenceable `D`, but its only impl
(src/src/with/provide/owned.rs, lines 144-157) requires `U: Provide<T>` and
clones the directly provided `T`.  Concretely, a provider holding the pair
`(3, DerefWrapper.new 7)` that provides a `Nat` directly (the field `3`) and
also provides the dereferenceable intermediate `DerefWrapper Nat` (the field
`⟨7⟩`, whose `Nat` target is `7`): under `CloneDependency` the dependency
produced is the directly provided `3`, not the clone of the `T` target of the
provided intermediate, which is `7`. -/
theorem clone_dependency_clones_direct_not_target :
    ¬ (((ProvideWith.cloneDependency (id : Nat → Nat)
          (⟨fun p => (p.1, p.2)⟩ :
            Provide (Nat × DerefWrapper Nat) Nat (DerefWrapper Nat))
          (⟨fun w t => (w, t)⟩ :
            With (DerefWrapper Nat) Nat (DerefWrapper Nat × Nat))).provide_with
          (3, DerefWrapper.new 7) CloneDependency.new).1
        = id (DerefWrapper.deref
            ((⟨fun p => (p.2, p.1)⟩ :
              Provide (Nat × DerefWrapper Nat) (DerefWrapper Nat) Nat).provide
              (3, DerefWrapper.new 7)).1)) := by
  decide

/-- C8 (amended): the by-shared-reference and by-unique-reference clone
contexts clone the dependency through the provided intermediate
dereferenceable value — the result equals the clone of the `T` target reached
by dereferencing the provided reference-family value, and for the by-value
form over a `&T`-providing provider the result equals the clone of the
referenced `T` target — while the by-value `CloneDependency` context instead
requires the provider to provide `T` directly and clones that directly
provided dependency (feeding the clone to the remainder through `With`), with
no intermediate dereference. -/
theorem clone_dependency_contexts_clone_through_deref {U T RefT M R O : Type}
    (instR : ProvideRef U T RefT) (instM : ProvideMut U T M)
    (instL : ProvideRefLt U T) (instP : Provide U T R) (w : With R T O)
    (clone : T → T) (u : U) :
    DerefWrapper.deref
        ((ProvideRefWith.cloneDependencyRef clone instR).provide_ref_with u
          CloneDependencyRef.new)
      = clone (instR.deref (instR.provide_ref u))
      ∧ DerefWrapper.deref
          ((ProvideMutWith.cloneDependencyMut clone instM).provide_mut_with u
            CloneDependencyMut.new)
        = clone (instM.deref (instM.provide_mut u))
      ∧ ((ProvideWith.cloneDependencyRef clone instL).provide_with u
          CloneDependencyRef.new).1
        = clone (instL.provide_ref u)
      ∧ (ProvideWith.cloneDependency clone instP w).provide_with u
          CloneDependency.new
        = ((instP.provide u).1, w.with' (instP.provide u).2 (clone (instP.provide u).1)) :=
  ⟨rfl, rfl, rfl, rfl⟩

/-- C9: `DerefWrapper` is a transparent pass-through: `into_inner` recovers
the held value, dereferencing (shared or mutable) and `borrow`/`borrow_mut`
reach exactly the held value, and `as_ref`/`as_mut` reach what the same
operation on the held value itself would reach. -/
theorem deref_wrapper_transparent_passthrough {T V W : Type}
    (x : T) (f : T → V) (g : T → W) :
    DerefWrapper.into_inner (DerefWrapper.new x) = x
      ∧ DerefWrapper.deref (DerefWrapper.new x) = x
      ∧ DerefWrapper.deref_mut (DerefWrapper.new x) = x
      ∧ DerefWrapper.borrow (DerefWrapper.new x) = x
      ∧ DerefWrapper.borrow_mut (DerefWrapper.new x) = x
      ∧ DerefWrapper.as_ref f (DerefWrapper.new x) = f x
      ∧ DerefWrapper.as_mut g (DerefWrapper.new x) = g x :=
  ⟨rfl, rfl, rfl, rfl, rfl, rfl, rfl⟩

/-- C10: every reference-based by-value context returns the provider itself as
the remainder of `provide_with`; for the shared-reference forms the remainder
is always the untouched provider, and for the unique-reference forms it equals
the provider before the call whenever the underlying implementation does not
mutate it (the `hML`/`hMW`/`hMLT`/`hMWT` hypotheses, satisfied by the blanket
`AsRef`/`AsMut` implementations). -/
theorem ref_based_contexts_return_provider_as_remainder {U C D T : Type}
    (instRL : ProvideRefLt U D) (instRW : ProvideRefWithLt U C D)
    (instML : ProvideMutLt U D) (instMW : ProvideMutWithLt U C D)
    (instRLT : ProvideRefLt U T) (instRWT : ProvideRefWithLt U C T)
    (instMLT : ProvideMutLt U T) (instMWT : ProvideMutWithLt U C T)
    (into : D → T) (clone : T → T) (u : U) (c : C)
    (hML : (instML.provide_mut u).2 = u)
    (hMW : (instMW.provide_mut_with u c).2 = u)
    (hMLT : (instMLT.provide_mut u).2 = u)
    (hMWT : (instMWT.provide_mut_with u c).2 = u) :
    ((ProvideWith.fromDependencyRef instRL into).provide_with u
        FromDependencyRef.new).2 = u
      ∧ ((ProvideWith.fromDependencyRefWith instRW into).provide_with u ⟨c⟩).2 = u
      ∧ ((ProvideWith.cloneDependencyRef clone instRLT).provide_with u
          CloneDependencyRef.new).2 = u
      ∧ ((ProvideWith.cloneDependencyRefWith clone instRWT).provide_with u ⟨c⟩).2 = u
      ∧ ((ProvideWith.fromDependencyMut instML into).provide_with u
          FromDependencyMut.new).2 = u
      ∧ ((ProvideWith.fromDependencyMutWith instMW into).provide_with u ⟨c⟩).2 = u
      ∧ ((ProvideWith.cloneDependencyMut clone instMLT).provide_with u
          CloneDependencyMut.new).2 = u
      ∧ ((ProvideWith.cloneDependencyMutWith clone instMWT).provide_with u ⟨c⟩).2 = u :=
  ⟨rfl, rfl, rfl, rfl, hML, hMW, hMLT, hMWT⟩

/-- Witness for C10 at a concrete non-mutating provider over `Nat`. -/
theorem ref_based_contexts_remainder_witness :
    ((ProvideWith.cloneDependencyMutWith (id : Nat → Nat)
        (⟨fun n _ => (n, n)⟩ : ProvideMutWithLt Nat Unit Nat)).provide_with 3
        ⟨()⟩).2 = 3 :=
  (ref_based_contexts_return_provider_as_remainder
      (⟨fun n => n⟩ : ProvideRefLt Nat Nat)
      (⟨fun n _ => n⟩ : ProvideRefWithLt Nat Unit Nat)
      (⟨fun n => (n, n)⟩ : ProvideMutLt Nat Nat)
      (⟨fun n _ => (n, n)⟩ : ProvideMutWithLt Nat Unit Nat)
      (⟨fun n => n⟩ : ProvideRefLt Nat Nat)
      (⟨fun n _ => n⟩ : ProvideRefWithLt Nat Unit Nat)
      (⟨fun n => (n, n)⟩ : ProvideMutLt Nat Nat)
      (⟨fun n _ => (n, n)⟩ : ProvideMutWithLt Nat Unit Nat)
      id id 3 () rfl rfl rfl rfl).2.2.2.2.2.2.2
